import Mathlib

/-!
Verification of the pydpiper repository's specification against a shallow
embedding of its source code.

The embedded fragments come from:
* `pydpiper/core/arguments.py` (argparse option groups),
* `pydpiper/itk/tools.py` (ITK backend: `convert`, `imageToXfm`, `xfmToImage`,
  `as_deformation`, the concrete `Algorithms` class),
* `pydpiper/minc/nlin.py` (abstract `Algorithms` capability interface),
* `pydpiper/pipelines/registration_chain.py` (`chain` input-space check,
  `parse_common`, `parse_csv`).

The generic stage/graph engine (`pydpiper/core/stages.py`) and the file atoms
(`pydpiper/core/files.py`) are not part of the provided sources; where a claim
depends on them they are modelled from the spec, and each such definition says
so in its doc comment.
-/

set_option maxRecDepth 4000

deriving instance DecidableEq for Except

namespace Pydpiper

/-! ### Stage / planning algebra (spec-modelled: `core/stages.py` is absent) -/

/-- Modelled from the spec: a `CmdStage` is an "immutable description of one
external command, its input file set, output file set"; "identity/equality is
structural: two stages with the same command, inputs, and outputs are the same
stage".  (`pydpiper/core/stages.py` is not among the provided sources.)
Resource requests are irrelevant to the claims and omitted from equality-free
reasoning would be unsound, so we keep the three identity-bearing fields. -/
structure CmdStage where
  cmd : List String
  inputs : Finset String
  outputs : Finset String
deriving DecidableEq

/-- Modelled from the spec: a fragment ("Stages") is a collection of stages
with structural deduplication, i.e. a finite set of `CmdStage`s. -/
abbrev Stages : Type := Finset CmdStage

/-- Modelled from the spec: "concatenating two fragments is set-union on their
stage collections with structural deduplication". -/
def Stages.merge (a b : Stages) : Stages := a ∪ b

/-- Modelled from the spec: two distinct stages conflict when they "declare the
same output path". -/
def CmdStage.conflictsWith (s1 s2 : CmdStage) : Prop :=
  s1 ≠ s2 ∧ (s1.outputs ∩ s2.outputs).Nonempty

instance (s1 s2 : CmdStage) : Decidable (s1.conflictsWith s2) := by
  unfold CmdStage.conflictsWith
  infer_instance

/-- Modelled from the spec: a graph has an output conflict when two distinct
stages in it declare a common output path. -/
def Stages.hasOutputConflict (g : Stages) : Prop :=
  ∃ s1 ∈ g, ∃ s2 ∈ g, s1.conflictsWith s2

instance (g : Stages) : Decidable g.hasOutputConflict := by
  unfold Stages.hasOutputConflict
  infer_instance

/-- Modelled from the spec: "attempting to add two *different* stages that
declare the same output path is a fatal configuration error raised at merge
time, not silently tolerated". -/
def Stages.mergeChecked (a b : Stages) : Except String Stages :=
  let g := a.merge b
  if g.hasOutputConflict then
    Except.error "fatal configuration error: duplicate output path"
  else
    Except.ok g

/-! ### Application option group (`core/arguments.py`, lines 35-39) -/

/-- Embedding of the `restart` destination of `addApplicationArgumentGroup`
(`pydpiper/core/arguments.py` lines 35-39): `--restart` is declared with
`action="store_false", default=True`, and `--no-restart` with
`action="store_false"`.  Argparse applies each flag's store action in
command-line order starting from the default, so both flags store `False`. -/
def restartFromArgs (args : List String) : Bool :=
  args.foldl
    (fun r arg =>
      if arg = "--restart" then false
      else if arg = "--no-restart" then false
      else r)
    true

/-! ### Algorithms capability interface (`minc/nlin.py` and `itk/tools.py`) -/

/-- The operations declared by the abstract `Algorithms` class in
`pydpiper/minc/nlin.py` (lines 13-53): `blur`, `average`, `resample`,
`average_transforms`, `scale_transform`. -/
inductive AlgOp where
  | blur
  | average
  | resample
  | average_transforms
  | scale_transform
deriving DecidableEq, Fintype

/-- Whether a class-dict entry is an abstract stub or a concrete method. -/
inductive MethodDef where
  | abstractMethod
  | concreteMethod
deriving DecidableEq

/-- Class dictionary of the abstract `Algorithms` class in
`pydpiper/minc/nlin.py`: every declared operation is an
`@abstractstaticmethod` stub. -/
def mincAlgorithmsClassDict : List (AlgOp × MethodDef) :=
  [(AlgOp.blur, MethodDef.abstractMethod),
   (AlgOp.average, MethodDef.abstractMethod),
   (AlgOp.resample, MethodDef.abstractMethod),
   (AlgOp.average_transforms, MethodDef.abstractMethod),
   (AlgOp.scale_transform, MethodDef.abstractMethod)]

/-- Class dictionary of the concrete `Algorithms(Algorithms)` class in
`pydpiper/itk/tools.py` (lines 277-325), in source order: `average` (bound to
`average_images`), `blur`, `resample` (bound to module-level `resample`),
`scale_transform`, `average_transforms`. -/
def itkAlgorithmsClassDict : List (AlgOp × MethodDef) :=
  [(AlgOp.average, MethodDef.concreteMethod),
   (AlgOp.blur, MethodDef.concreteMethod),
   (AlgOp.resample, MethodDef.concreteMethod),
   (AlgOp.scale_transform, MethodDef.concreteMethod),
   (AlgOp.average_transforms, MethodDef.concreteMethod)]

/-- Python attribute lookup along the method-resolution order of the ITK
`Algorithms` class: the subclass dictionary first, then the abstract base. -/
def itkAlgorithmsLookup (op : AlgOp) : Option MethodDef :=
  match (itkAlgorithmsClassDict.find? (fun p => p.1 = op)) with
  | some p => some p.2
  | none =>
    match (mincAlgorithmsClassDict.find? (fun p => p.1 = op)) with
    | some p => some p.2
    | none => none

/-! ### Input-space check of the registration chain
(`pipelines/registration_chain.py`, lines 102-104) -/

/-- Modelled from the spec: the `InputSpace` enum (defined in
`pydpiper/minc/registration.py`, which is not among the provided sources) has
the members `native`, `lsq6` and `lsq12`, matching the `--input-space` help
text in `core/arguments.py` ("Can be native, lsq6, lsq12"). -/
inductive InputSpace where
  | native
  | lsq6
  | lsq12
deriving DecidableEq

/-- The members iterated by `InputSpace.__members__.values()`. -/
def InputSpace.members : List InputSpace :=
  [InputSpace.native, InputSpace.lsq6, InputSpace.lsq12]

/-- A runtime value held in `options.registration.input_space`: either an
actual `InputSpace` member or some other Python value (e.g. a raw string). -/
inductive InputSpaceVal where
  | member (m : InputSpace)
  | raw (s : String)
deriving DecidableEq

/-- Python equality between an `input_space` value and an enum member: an enum
member equals only itself; any other value compares unequal. -/
def InputSpaceVal.pyEq (v : InputSpaceVal) (m : InputSpace) : Bool :=
  match v with
  | InputSpaceVal.member m2 => m2 = m
  | InputSpaceVal.raw _ => false

/-- Rendering used in the error message of the check. -/
def InputSpaceVal.render (v : InputSpaceVal) : String :=
  match v with
  | InputSpaceVal.member InputSpace.native => "InputSpace.native"
  | InputSpaceVal.member InputSpace.lsq6 => "InputSpace.lsq6"
  | InputSpaceVal.member InputSpace.lsq12 => "InputSpace.lsq12"
  | InputSpaceVal.raw s => s

/-- Embedding of `pipelines/registration_chain.py` lines 102-104: during
planning, before any stage is deferred for the input-space-dependent parts of
the chain, `chain` raises
`ValueError('unrecognized input space: ...')` when
`options.registration.input_space not in InputSpace.__members__.values()`,
and otherwise continues without error. -/
def chainInputSpaceCheck (v : InputSpaceVal) : Except String Unit :=
  if InputSpace.members.any (fun m => v.pyEq m) then
    Except.ok ()
  else
    Except.error ("unrecognized input space: " ++ v.render
                  ++ "; choices: native,lsq6,lsq12")

/-! ### File atoms and the image/transform conversions (`itk/tools.py`) -/

/-- Modelled from the spec: the fields a `FileAtom` carries besides the
image-specific `mask`/`labels` (`pydpiper/core/files.py` is not among the
provided sources).  The exact field inventory is irrelevant to the claims;
what matters is that conversions transport this record unchanged. -/
structure FileAtomFields where
  path : String
  filename_wo_ext : String
  ext : String
  pipeline_sub_dir : String
  output_sub_dir : String
deriving DecidableEq

/-- An `ITKImgAtom` (an `ImgAtom`): the `FileAtom` fields plus the
image-specific `mask` and `labels` attributes, which are themselves optional
image atoms. -/
inductive ImgAtom where
  | mk (file : FileAtomFields) (mask : Option ImgAtom) (labels : Option ImgAtom)

/-- The `FileAtom` fields of an image atom. -/
def ImgAtom.file : ImgAtom → FileAtomFields
  | ImgAtom.mk f _ _ => f

/-- The `mask` attribute of an image atom. -/
def ImgAtom.mask : ImgAtom → Option ImgAtom
  | ImgAtom.mk _ m _ => m

/-- The `labels` attribute of an image atom. -/
def ImgAtom.labels : ImgAtom → Option ImgAtom
  | ImgAtom.mk _ _ l => l

/-- An `ITKXfmAtom` (a `FileAtom`): no `mask`/`labels` attributes. -/
structure ITKXfmAtom where
  file : FileAtomFields
deriving DecidableEq

/-- Embedding of `imageToXfm` (`itk/tools.py` lines 262-267): deep-copy the
image atom, reassign its class to `ITKXfmAtom`, and delete the `mask` and
`labels` attributes, leaving exactly the `FileAtom` fields. -/
def imageToXfm (i : ImgAtom) : ITKXfmAtom :=
  ITKXfmAtom.mk i.file

/-- Embedding of `xfmToImage` (`itk/tools.py` lines 269-274): deep-copy the
transform atom, reassign its class to `ITKImgAtom`, and set its `mask` and
`labels` attributes to `None`. -/
def xfmToImage (x : ITKXfmAtom) : ImgAtom :=
  ImgAtom.mk x.file none none

/-- Modelled from the spec: `ImgAtom.newext` (from the absent
`pydpiper/core/files.py`) returns a fresh atom for the same file with the new
extension; the fresh atom carries no `mask`/`labels` (the `convert` code in
`itk/tools.py` explicitly reassigns `outfile.mask` when the input has one,
which is what makes its attribute flow observable). -/
def ImgAtom.newext (i : ImgAtom) (out_ext : String) : ImgAtom :=
  ImgAtom.mk
    { i.file with ext := out_ext, path := i.file.filename_wo_ext ++ out_ext }
    none none

/-- Reassignment of the `mask` attribute of an image atom. -/
def ImgAtom.setMask : ImgAtom → Option ImgAtom → ImgAtom
  | ImgAtom.mk f _ l, m => ImgAtom.mk f m l

/-- Embedding of `convert` (`itk/tools.py` lines 21-30): makes
`outfile = infile.newext(ext=out_ext)`; when `infile.mask` is set, assigns the
deferred conversion of the mask to `outfile.mask`; when `infile.labels` is
set, assigns the deferred conversion of the labels to `outfile.mask` (sic);
then adds the `c3d` command stage.  Returns the pair of accumulated stages and
the output atom. -/
def convert (infile : ImgAtom) (out_ext : String) : Stages × ImgAtom :=
  match infile with
  | ImgAtom.mk f m l =>
    let out0 := ImgAtom.newext (ImgAtom.mk f m l) out_ext
    let r1 : Stages × ImgAtom :=
      match m with
      | some maskImg =>
        let rm := convert maskImg out_ext
        (rm.1, out0.setMask (some rm.2))
      | none => ((∅ : Finset CmdStage), out0)
    let r2 : Stages × ImgAtom :=
      match l with
      | some labelsImg =>
        let rl := convert labelsImg out_ext
        (Stages.merge r1.1 rl.1, r1.2.setMask (some rl.2))
      | none => r1
    (insert (CmdStage.mk ["c3d", f.path, "-o", r2.2.file.path]
                         {f.path} {r2.2.file.path})
            r2.1,
     r2.2)

/-! ### The ITK `scale_transform` planning operation (`itk/tools.py`) -/

/-- The parameter names of `as_deformation` (`itk/tools.py` lines 71-74):
`transform`, `reference_image`, `interpolation`, `invert`, `dimensionality`,
`default_voxel_value`, `new_name_wo_ext`, `subdir`, `ext`. -/
def asDeformationParams : List String :=
  ["transform", "reference_image", "interpolation", "invert", "dimensionality",
   "default_voxel_value", "new_name_wo_ext", "subdir", "ext"]

/-- The parameters of `as_deformation` that have no default value and must be
bound by the call: `transform` and `reference_image`. -/
def asDeformationRequired : List String := ["transform", "reference_image"]

/-- Python keyword-argument binding for a call made with keyword arguments
only: a keyword that is not a parameter name raises
`TypeError: ... got an unexpected keyword argument ...`; otherwise a required
parameter left unbound raises `TypeError: ... missing ... required ...`. -/
def checkKwargs (fname : String) (params required kwnames : List String)
    : Except String Unit :=
  match kwnames.find? (fun k => !(params.contains k)) with
  | some k =>
    Except.error ("TypeError: " ++ fname
                  ++ "() got an unexpected keyword argument " ++ k)
  | none =>
    if required.all (fun p => kwnames.contains p) then
      Except.ok ()
    else
      Except.error ("TypeError: " ++ fname
                    ++ "() missing required positional arguments")

/-- Modelled from the spec: `FileAtom.newname` produces an atom for a file
with the given name, subdirectory and extension (from the absent
`pydpiper/core/files.py`). -/
def ITKXfmAtom.newname (x : ITKXfmAtom) (name subdir ext : String)
    : ITKXfmAtom :=
  ITKXfmAtom.mk { x.file with
                    filename_wo_ext := name,
                    path := name ++ ext,
                    ext := ext,
                    output_sub_dir := subdir }

/-- Embedding of a call to `as_deformation` (`itk/tools.py` lines 71-100):
`kwnames` are the keyword names supplied at the call site, `transform` the
transform value and `reference_image` the value bound to the
`reference_image` parameter (if the call site bound it at all).  After
keyword binding succeeds, the body renames the transform to a `_def` image in
`tmp` with extension `.nii.gz` via `xfmToImage` and emits one
`antsApplyTransforms` stage, returning the `Result`. -/
def as_deformationCall (kwnames : List String) (transform : ITKXfmAtom)
    (reference_image : Option ImgAtom) : Except String (Stages × ImgAtom) := do
  checkKwargs "as_deformation" asDeformationParams asDeformationRequired kwnames
  match reference_image with
  | none =>
    Except.error "TypeError: as_deformation() missing required positional arguments"
  | some ref =>
    let out_xfm := xfmToImage
      (transform.newname (transform.file.filename_wo_ext ++ "_def") "tmp" ".nii.gz")
    let cmd := ["antsApplyTransforms",
                "--reference-image", ref.file.path,
                "--output", "[" ++ out_xfm.file.path ++ ",1]",
                "--transform", transform.file.path]
    Except.ok ({CmdStage.mk cmd {transform.file.path, ref.file.path}
                            {out_xfm.file.path}},
               out_xfm)

/-- A transform handle (`XfmHandler`): carries the transform atom and its
source image, the two attributes `scale_transform` reads. -/
structure XfmHandler where
  xfm : ITKXfmAtom
  source : ImgAtom

/-- Embedding of `Algorithms.scale_transform` (`itk/tools.py` lines 304-312):
it calls `as_deformation(transform=xfm.xfm, reference=xfm.source)` — the
keyword names at the call site are `transform` and `reference`, and no value
reaches the `reference_image` parameter — then would take the `.xfm`
attribute of the resulting `ITKImgAtom` (which has no such attribute) and emit
a `c3d -scale` stage. -/
def scale_transform (xfm : XfmHandler) (scale : String)
    (newname_wo_ext : Option String) : Except String (Stages × ITKXfmAtom) := do
  let defsRes ← as_deformationCall ["transform", "reference"] xfm.xfm none
  let _defs := defsRes.2
  let scaled_defs ← (Except.error
    "AttributeError: ITKImgAtom object has no attribute xfm"
    : Except String ITKXfmAtom)
  let _ := scale
  let _ := newname_wo_ext
  Except.ok (defsRes.1, scaled_defs)

/-! ### Python string split and the stats-kernels option
(`core/arguments.py`, lines 267-272) -/

/-- Core of CPython `str.split` with a non-empty separator: scan the string,
and at each position where the separator is a prefix, emit the accumulated
token and skip the separator. -/
def pySplitChars (sep : List Char) (hsep : sep ≠ []) :
    List Char → List Char → List (List Char)
  | [], acc => [acc.reverse]
  | c :: rest, acc =>
    if sep.isPrefixOf (c :: rest) then
      acc.reverse :: pySplitChars sep hsep ((c :: rest).drop sep.length) []
    else
      pySplitChars sep hsep rest (c :: acc)
termination_by s _ => s.length
decreasing_by
  · simp only [List.length_drop, List.length_cons]
    exact Nat.sub_lt (Nat.succ_pos _) (List.length_pos.mpr hsep)
  · simp

/-- Python `s.split(sep)`: raises `ValueError: empty separator` when `sep` is
the empty string, and otherwise splits `s` at every occurrence of `sep`. -/
def pySplit (s sep : String) : Except String (List String) :=
  if h : sep.data = [] then
    Except.error "ValueError: empty separator"
  else
    Except.ok ((pySplitChars sep.data h s.data []).map (fun l => String.mk l))

/-- The value stored in the parsed `stats_kernels` destination: either the
default list of floats or a list of strings produced by the `type` callable. -/
inductive StatsKernelsVal where
  | floats (ks : List ℚ)
  | strs (ss : List String)
deriving DecidableEq

/-- Embedding of the `type` callable of `--stats-kernels`
(`core/arguments.py` line 271): `lambda s: ','.split(s)` — the receiver is
the literal string "," and the user-supplied text is used as the separator. -/
def statsKernelsType (s : String) : Except String (List String) :=
  pySplit "," s

/-- Parsed value of the `stats_kernels` destination: the default
`[0.5, 0.2, 0.1]` (a list of floats) when `--stats-kernels` is omitted, and
the result of applying the `type` callable to the supplied text otherwise. -/
def statsKernels : Option String → Except String StatsKernelsVal
  | none =>
    Except.ok (StatsKernelsVal.floats [(1 : ℚ)/2, (1 : ℚ)/5, (1 : ℚ)/10])
  | some v => (statsKernelsType v).map StatsKernelsVal.strs

/-! ### Registration-chain CSV parsing
(`pipelines/registration_chain.py`, lines 303-385) -/

/-- Python exceptions raised by `parse_common`/`parse_csv`. -/
inductive PyErr where
  | valueError (msg : String)
  | timePointError (msg : String)
  | typeError (msg : String)
deriving DecidableEq

/-- A row of the input CSV as produced by `csv.DictReader`, restricted to the
fields `parse_csv` reads; `is_common` holds `row.get('is_common', '')`, i.e.
the empty string when the column is absent. -/
structure Row where
  subject_id : String
  timepoint : Int
  filename : String
  is_common : String

/-- A `Subject` as built by `parse_csv`:
`intersubject_registration_time_pt` (initially `None`) and the insertion-
ordered `time_pt_dict`. -/
structure Subject where
  irtp : Option Int
  time_pt_dict : List (Int × String)
deriving DecidableEq

/-- The `defaultdict` default: `Subject(intersubject_registration_time_pt=None)`
with an empty time-point dictionary. -/
def emptySubject : Subject := Subject.mk none []

/-- Insertion-ordered dictionary update with `defaultdict` semantics: apply
`f` to the existing entry, or to the default subject, appending a fresh
entry. -/
def dictUpdate (st : List (String × Subject)) (k : String)
    (f : Subject → Subject) : List (String × Subject) :=
  if st.any (fun p => p.1 == k) then
    st.map (fun p => if p.1 == k then (k, f p.2) else p)
  else
    st ++ [(k, f emptySubject)]

/-- Lookup in the subject dictionary. -/
def dictGet (st : List (String × Subject)) (k : String) : Option Subject :=
  (st.find? (fun p => p.1 == k)).map (fun p => p.2)

/-- Insertion-ordered update of a `time_pt_dict`:
`time_pt_dict[timepoint] = filename`. -/
def tpSet (d : List (Int × String)) (t : Int) (fn : String)
    : List (Int × String) :=
  if d.any (fun p => p.1 == t) then
    d.map (fun p => if p.1 == t then (t, fn) else p)
  else
    d ++ [(t, fn)]

/-- Python `max` over the keys of a (nonempty) `time_pt_dict`; the empty
case is unreachable because every subject is created by a row that
immediately records its timepoint. -/
def maxKeys (d : List (Int × String)) : Int :=
  match d with
  | [] => 0
  | p :: rest => rest.foldl (fun a q => Max.max a q.1) p.1

/-- Python `str.strip()`: remove leading and trailing whitespace. -/
def pyStrip (s : String) : String :=
  String.mk
    (((s.data.dropWhile Char.isWhitespace).reverse.dropWhile
        Char.isWhitespace).reverse)

/-- Embedding of `parse_common` (`pipelines/registration_chain.py` lines
303-318): strip the string; the truthy strings map to `True`, the falsy ones
to `False`, and anything else raises a `ValueError`. -/
def parse_common (string : String) : Except PyErr Bool :=
  let truthy_strings := ["1", "True", "true", "T", "t"]
  let falsy_strings := ["", "0", "False", "false", "F", "f"]
  let s := pyStrip string
  if truthy_strings.contains s then
    Except.ok true
  else if falsy_strings.contains s then
    Except.ok false
  else
    Except.error (PyErr.valueError ("Unrecognized value " ++ s))

/-- One iteration of the first loop of `parse_csv` (lines 337-354): record
the scan in the subject dictionary (creating the subject on first sight),
then, when the `is_common` field parses truthy, record the common time point,
raising `TimePointError` when one was already recorded for that subject. -/
def parseCsvRow (st : List (String × Subject)) (row : Row)
    : Except PyErr (List (String × Subject)) := do
  let st1 := dictUpdate st row.subject_id
    (fun s => Subject.mk s.irtp (tpSet s.time_pt_dict row.timepoint row.filename))
  let isCommon ← parse_common row.is_common
  if isCommon then
    match dictGet st1 row.subject_id with
    | some s =>
      match s.irtp with
      | some _ =>
        Except.error (PyErr.timePointError
          ("multiple common time points specified for subject " ++ row.subject_id))
      | none =>
        Except.ok (dictUpdate st1 row.subject_id
          (fun s2 => Subject.mk (some row.timepoint) s2.time_pt_dict))
    | none => Except.ok st1
  else
    Except.ok st1

/-- One iteration of the second loop of `parse_csv` (lines 359-383) for one
subject: when no subject-specific time point was recorded, fall back to
`common_time_pt` — raising `TimePointError` when it is `None`, using it when
it is among the subject timepoints, using the maximum timepoint when it is
`-1`, and raising `TimePointError` otherwise; when a subject-specific time
point was recorded and differs from `common_time_pt`, the code interpolates
`common_time_pt` with the `%d` conversion in a note, which raises `TypeError`
when `common_time_pt` is `None`. -/
def resolveSubject (common_time_pt : Option Int) (sid : String) (s : Subject)
    : Except PyErr Subject :=
  match s.irtp with
  | none =>
    match common_time_pt with
    | none =>
      Except.error (PyErr.timePointError
        ("no subject-specific or default inter-subject time point provided for subject "
         ++ sid))
    | some c =>
      if s.time_pt_dict.any (fun p => p.1 == c) then
        Except.ok (Subject.mk (some c) s.time_pt_dict)
      else if c == -1 then
        Except.ok (Subject.mk (some (maxKeys s.time_pt_dict)) s.time_pt_dict)
      else
        Except.error (PyErr.timePointError
          ("subject " ++ sid
           ++ " did not have a scan for the common time point specified"))
  | some t =>
    match common_time_pt with
    | none =>
      Except.error (PyErr.typeError
        "%d format: a number is required, not NoneType")
    | some c =>
      let _ := c ≠ t
      Except.ok s

/-- Embedding of `parse_csv` (`pipelines/registration_chain.py` lines
322-385): the first loop populates the subject dictionary from the rows; the
second loop fills in each intersubject-registration time point (or raises),
preserving dictionary insertion order. -/
def parse_csv (rows : List Row) (common_time_pt : Option Int)
    : Except PyErr (List (String × Subject)) := do
  let st ← rows.foldlM parseCsvRow []
  st.foldlM
    (fun acc p => do
      let s2 ← resolveSubject common_time_pt p.1 p.2
      pure (acc ++ [(p.1, s2)]))
    []

/-! ### Concrete sample values used by witnesses -/

/-- A sample stage writing the file `x`. -/
def stageA : CmdStage := CmdStage.mk ["touch", "x"] ∅ {"x"}

/-- A different sample stage also declaring the output `x`. -/
def stageB : CmdStage := CmdStage.mk ["cp", "y", "x"] {"y"} {"x"}

/-- A sample mask atom. -/
def maskAtom : ImgAtom :=
  ImgAtom.mk (FileAtomFields.mk "m.mnc" "m" ".mnc" "proc" "out") none none

/-- A sample labels atom. -/
def labelsAtom : ImgAtom :=
  ImgAtom.mk (FileAtomFields.mk "l.mnc" "l" ".mnc" "proc" "out") none none

/-- A sample image atom carrying both a mask and labels. -/
def imgSample : ImgAtom :=
  ImgAtom.mk (FileAtomFields.mk "i.mnc" "i" ".mnc" "proc" "out")
    (some maskAtom) (some labelsAtom)

/-- A sample CSV row whose `is_common` field is marked. -/
def rowCommon : Row := Row.mk "s1" 1 "s1_1.mnc" "1"

/-! ## Theorems -/

/-- C1: merging pipeline fragments is set-union with structural
deduplication: the merge is associative and commutative, and a stage
contained in both fragments (the same stage submitted from two different call
paths) occurs exactly once in the merged graph. -/
theorem stages_merge_is_dedup_union :
    (∀ a b c : Stages, (a.merge b).merge c = a.merge (b.merge c))
    ∧ (∀ a b : Stages, a.merge b = b.merge a)
    ∧ (∀ (a b : Stages) (s : CmdStage), s ∈ a → s ∈ b →
        ((a.merge b).filter (fun t => t = s)).card = 1) := by
  refine ⟨fun a b c => Finset.union_assoc a b c, fun a b => Finset.union_comm a b, ?_⟩
  intro a b s hsa _hsb
  have hmem : s ∈ a.merge b := Finset.mem_union_left b hsa
  rw [Finset.filter_eq', if_pos hmem, Finset.card_singleton]

theorem stages_merge_is_dedup_union_witness :
    stageA ∈ ({stageA} : Stages)
    ∧ ((Stages.merge {stageA} {stageA}).filter (fun t => t = stageA)).card = 1 :=
  ⟨Finset.mem_singleton_self stageA,
   stages_merge_is_dedup_union.2.2 {stageA} {stageA} stageA
     (Finset.mem_singleton_self stageA) (Finset.mem_singleton_self stageA)⟩

/-- C2: merging two distinct stages that declare a common output path raises
the fatal configuration error at merge time, and in every accepted (merged
without error) graph no two distinct stages share an output path. -/
theorem merge_duplicate_output_is_fatal :
    (∀ s1 s2 : CmdStage, s1 ≠ s2 → (s1.outputs ∩ s2.outputs).Nonempty →
        Stages.mergeChecked {s1} {s2} =
          Except.error "fatal configuration error: duplicate output path")
    ∧ (∀ a b g : Stages, Stages.mergeChecked a b = Except.ok g →
        ∀ s1 ∈ g, ∀ s2 ∈ g, s1 ≠ s2 → s1.outputs ∩ s2.outputs = ∅) := by
  constructor
  · intro s1 s2 hne hcommon
    have hconf : (Stages.merge {s1} {s2}).hasOutputConflict := by
      refine ⟨s1, ?_, s2, ?_, hne, hcommon⟩
      · exact Finset.mem_union_left _ (Finset.mem_singleton_self s1)
      · exact Finset.mem_union_right _ (Finset.mem_singleton_self s2)
    unfold Stages.mergeChecked
    simp only [if_pos hconf]
  · intro a b g hok s1 hs1 s2 hs2 hne
    unfold Stages.mergeChecked at hok
    by_cases hconf : (Stages.merge a b).hasOutputConflict
    · simp only [if_pos hconf] at hok
      exact Except.noConfusion hok
    · simp only [if_neg hconf] at hok
      have hg : Stages.merge a b = g := by injection hok
      rw [Finset.eq_empty_iff_forall_not_mem]
      intro x hx
      refine hconf ⟨s1, ?_, s2, ?_, hne, ⟨x, hx⟩⟩
      · rw [hg]; exact hs1
      · rw [hg]; exact hs2

theorem merge_duplicate_output_is_fatal_witness :
    stageA ≠ stageB
    ∧ (stageA.outputs ∩ stageB.outputs).Nonempty
    ∧ Stages.mergeChecked {stageA} {stageB} =
        Except.error "fatal configuration error: duplicate output path" :=
  ⟨by decide, by decide,
   merge_duplicate_output_is_fatal.1 stageA stageB (by decide) (by decide)⟩

/-- C3: evaluation of the application option group at the failing input
`--restart`: the default is `restart = True` and `--no-restart` stores
`False`, but — because `--restart` is declared with `action="store_false"` —
supplying `--restart` also stores `False`, contradicting its own help text
("Restart pipeline using backup files") and the claim that the two flags are
opposites. -/
theorem restart_flag_stores_false :
    restartFromArgs [] = true
    ∧ restartFromArgs ["--restart"] = false
    ∧ restartFromArgs ["--no-restart"] = false := by
  decide

/-- C4: evaluation of the ITK backend `scale_transform` at every input: the
call `as_deformation(transform=xfm.xfm, reference=xfm.source)` passes the
keyword `reference`, which is not a parameter of `as_deformation`, so the
operation always raises a `TypeError` and never returns a
`(stages, output)` `Result`, contradicting the planning-operation contract. -/
theorem scale_transform_always_raises :
    ∀ (xfm : XfmHandler) (scale : String) (newname_wo_ext : Option String),
      scale_transform xfm scale newname_wo_ext =
        Except.error
          "TypeError: as_deformation() got an unexpected keyword argument reference" :=
  fun _ _ _ => rfl

/-- C6: `imageToXfm` carries over exactly the non-`mask`/`labels` fields of
the image atom, and the round trip `xfmToImage (imageToXfm i)` returns the
image atom `i` with its `mask` and `labels` set to `None`; both conversions
are pure functions of a (deep-copied) value and leave their argument
untouched. -/
theorem imageToXfm_round_trip :
    ∀ i : ImgAtom,
      (imageToXfm i).file = i.file
      ∧ xfmToImage (imageToXfm i) = ImgAtom.mk i.file none none := by
  intro i
  cases i
  exact ⟨rfl, rfl⟩

/-- C7: attribute lookup on the ITK `Algorithms` class resolves every
operation declared by the abstract `Algorithms` capability interface — blur,
average, resample, scale_transform and average_transforms — to a concrete
method of the ITK class dictionary, never to the abstract stub of the base
class. -/
theorem itk_algorithms_all_concrete :
    ∀ op : AlgOp, itkAlgorithmsLookup op = some MethodDef.concreteMethod := by
  decide

/-- C5: the registration-chain planner raises the fatal
`unrecognized input space` error during planning exactly when the configured
input space is not an `InputSpace` member, and raises no such error for
recognized members (the check runs before any stage is deferred). -/
theorem chain_input_space_check_fatal_iff_unrecognized :
    ∀ v : InputSpaceVal,
      ((∃ m : InputSpace, v = InputSpaceVal.member m) →
        chainInputSpaceCheck v = Except.ok ())
      ∧ ((∀ m : InputSpace, v ≠ InputSpaceVal.member m) →
        chainInputSpaceCheck v =
          Except.error ("unrecognized input space: " ++ v.render
                        ++ "; choices: native,lsq6,lsq12")) := by
  intro v
  constructor
  · rintro ⟨m, rfl⟩
    cases m <;> rfl
  · intro hraw
    cases v with
    | member m => exact absurd rfl (hraw m)
    | raw s => rfl

theorem chain_input_space_check_fatal_iff_unrecognized_witness :
    chainInputSpaceCheck (InputSpaceVal.member InputSpace.native) = Except.ok ()
    ∧ chainInputSpaceCheck (InputSpaceVal.raw "foo") =
        Except.error "unrecognized input space: foo; choices: native,lsq6,lsq12" :=
  ⟨(chain_input_space_check_fatal_iff_unrecognized
      (InputSpaceVal.member InputSpace.native)).1 ⟨InputSpace.native, rfl⟩,
   (chain_input_space_check_fatal_iff_unrecognized
      (InputSpaceVal.raw "foo")).2 (by intro m h; cases h)⟩

/-- C8: evaluation of `parse_csv` at the failing input: one row for subject
`s1` at timepoint 1 with `is_common = "1"`, and `common_time_pt = None`.
The claim (and the documented intent of `--common-time-point`) says the
`is_common` row wins, but the override-note `print` interpolates
`common_time_pt` with the `%d` conversion, which raises `TypeError` on
`None`, so `parse_csv` crashes instead. -/
theorem parse_csv_is_common_with_none_common_raises :
    parse_csv [rowCommon] none =
      Except.error (PyErr.typeError "%d format: a number is required, not NoneType") := by
  rfl

theorem list_isPrefixOf_comma_false (l : List Char) (h1 : l ≠ []) (h2 : l ≠ [',']) :
    l.isPrefixOf [','] = false := by
  cases l with
  | nil => exact absurd rfl h1
  | cons a as =>
    cases as with
    | nil =>
      by_cases ha : a = ','
      · exact absurd (by rw [ha]) h2
      · simp [List.isPrefixOf, ha]
    | cons b bs =>
      simp [List.isPrefixOf]

theorem pySplitChars_comma_receiver (v : List Char) (h1 : v ≠ []) (h2 : v ≠ [',']) :
    pySplitChars v h1 [','] [] = [[',']] := by
  rw [pySplitChars]
  rw [list_isPrefixOf_comma_false v h1 h2]
  simp only [Bool.false_eq_true, if_false]
  rw [pySplitChars]
  rfl

/-- C9: for every explicitly supplied `--stats-kernels` string `v`, the
parsed value is the list of strings `','.split(v)` — the single-element list
`[","]` whenever `v` is a nonempty string other than `","` — and never a
list of floats; the float list `[0.5, 0.2, 0.1]` occurs only as the default
when the option is omitted. -/
theorem stats_kernels_split_is_backwards :
    ∀ v : String,
      statsKernels (some v) = (pySplit "," v).map StatsKernelsVal.strs
      ∧ (v ≠ "" → v ≠ "," →
          statsKernels (some v) = Except.ok (StatsKernelsVal.strs [","]))
      ∧ statsKernels none =
          Except.ok (StatsKernelsVal.floats [(1 : ℚ)/2, (1 : ℚ)/5, (1 : ℚ)/10]) := by
  intro v
  refine ⟨rfl, ?_, rfl⟩
  intro hne hnc
  have hdata : v.data ≠ [] := by
    intro h
    exact hne (String.ext (h.trans (by decide)))
  have hdatac : v.data ≠ [','] := by
    intro h
    exact hnc (String.ext (h.trans (by decide)))
  show (statsKernelsType v).map StatsKernelsVal.strs =
    Except.ok (StatsKernelsVal.strs [","])
  unfold statsKernelsType pySplit
  rw [dif_neg hdata]
  have hcomma : (String.data ",") = [','] := by decide
  rw [hcomma, pySplitChars_comma_receiver v.data hdata hdatac]
  rfl

theorem stats_kernels_split_is_backwards_witness :
    ("0.5,0.2,0.1" : String) ≠ ""
    ∧ ("0.5,0.2,0.1" : String) ≠ ","
    ∧ statsKernels (some "0.5,0.2,0.1") = Except.ok (StatsKernelsVal.strs [","]) :=
  ⟨by decide, by decide,
   (stats_kernels_split_is_backwards "0.5,0.2,0.1").2.1 (by decide) (by decide)⟩

/-- C10: for every input image whose `labels` attribute is set, `convert`
assigns the converted labels file to the output image `mask` attribute
(overwriting the converted mask when the input has both), and the output
image `labels` attribute is never set. -/
theorem convert_labels_become_mask :
    ∀ (i : ImgAtom) (e : String),
      (convert i e).2.labels = none
      ∧ (∀ li : ImgAtom, i.labels = some li →
          (convert i e).2.mask = some ((convert li e).2)) := by
  intro i e
  cases i with
  | mk f m l =>
    constructor
    · cases m <;> cases l <;>
        simp [convert, ImgAtom.newext, ImgAtom.setMask, ImgAtom.labels]
    · intro li hli
      cases l with
      | none => exact absurd hli (by simp [ImgAtom.labels])
      | some la =>
        have hla : la = li := by
          simp only [ImgAtom.labels, Option.some.injEq] at hli
          exact hli
        subst hla
        cases m <;>
          simp [convert, ImgAtom.newext, ImgAtom.setMask, ImgAtom.mask]

theorem convert_labels_become_mask_witness :
    imgSample.labels = some labelsAtom
    ∧ (convert imgSample ".nii").2.labels = none
    ∧ (convert imgSample ".nii").2.mask = some ((convert labelsAtom ".nii").2) :=
  ⟨rfl,
   (convert_labels_become_mask imgSample ".nii").1,
   (convert_labels_become_mask imgSample ".nii").2 labelsAtom rfl⟩

end Pydpiper
